import Mathlib

/-!
Verification of the status-classification-and-submission pipeline of the
google-indexing-script repository.

The embedding covers the two pipeline variants found in the sources:
the main variant (`src/index.ts`) and the prompt-UI variant
(`src/unnamed/part_001`), together with the shared data model
(`src/unnamed/part_000`).

Modelling conventions:
* `Date` values (millisecond timestamps) are modelled as `Int`; the ISO
  string stored in `lastCheckedAt` is identified with the timestamp it
  denotes, since the code only ever compares it after parsing it back
  into a `Date`.
* The JavaScript object `Record<string, Page>` is modelled as an
  association list `List (String × Page)` with insertion-order keys and
  in-place replacement on update, matching JS object key semantics.
* External collaborators (`getPageIndexingStatus`, `getPublishMetadata`)
  are modelled as function parameters (environments).
-/

set_option autoImplicit false

namespace GIS

/-- The nine raw indexing statuses reported per URL
(`IndexingStatus` in `src/unnamed/part_000`, `Status` in `part_001`). -/
inductive IndexingStatus where
  | SubmittedAndIndexed
  | DuplicateWithoutUserSelectedCanonical
  | CrawledCurrentlyNotIndexed
  | DiscoveredCurrentlyNotIndexed
  | PageWithRedirect
  | URLIsUnknownToGoogle
  | RateLimited
  | Forbidden
  | Error
  deriving DecidableEq, Repr

/-- The derived actionability state (`PageStatus` in `src/unnamed/part_000`). -/
inductive PageStatus where
  | Pending
  | Processing
  | Completed
  | Failed
  deriving DecidableEq, Repr

/-- A cache entry (`Page` in `src/unnamed/part_000`): `lastCheckedAt` is the
millisecond timestamp denoted by the stored ISO string. -/
structure Page where
  status : PageStatus
  indexingStatus : IndexingStatus
  lastCheckedAt : Int
  deriving DecidableEq, Repr

/-- `CACHE_TIMEOUT = 1000 * 60 * 60 * 24 * 14` (14 days in milliseconds);
identical in `src/index.ts` line 18 and `part_001` line 20. -/
def CACHE_TIMEOUT : Int := 1000 * 60 * 60 * 24 * 14

/-- Retry configuration for read requests per minute (`QUOTA.rpm`). -/
structure RpmQuota where
  retries : Nat
  waitingTime : Nat
  deriving DecidableEq, Repr

/-- `QUOTA` from `src/index.ts` lines 19-24 (identical in `part_001`). -/
structure Quota where
  rpm : RpmQuota
  deriving DecidableEq, Repr

def QUOTA : Quota := ⟨⟨3, 60000⟩⟩

/-- `retriesOnRateLimit` option passed to `getPublishMetadata`
(`src/index.ts` line 183): `options.quota.rpmRetry ? QUOTA.rpm.retries : 0`. -/
def retriesOnRateLimit (rpmRetry : Bool) : Nat :=
  if rpmRetry then QUOTA.rpm.retries else 0

/-- `indexableStatuses` of the main variant (`src/index.ts` lines 112-118). -/
def indexableStatuses : List IndexingStatus :=
  [IndexingStatus.DiscoveredCurrentlyNotIndexed,
   IndexingStatus.CrawledCurrentlyNotIndexed,
   IndexingStatus.URLIsUnknownToGoogle,
   IndexingStatus.Forbidden,
   IndexingStatus.Error]

/-- `indexableStatuses` of the prompt-UI variant (`part_001` lines 127-134);
it additionally contains `RateLimited`. -/
def indexableStatusesVariant : List IndexingStatus :=
  [IndexingStatus.DiscoveredCurrentlyNotIndexed,
   IndexingStatus.CrawledCurrentlyNotIndexed,
   IndexingStatus.URLIsUnknownToGoogle,
   IndexingStatus.Forbidden,
   IndexingStatus.Error,
   IndexingStatus.RateLimited]

/-- The status classifier inlined in the batch worker of `src/index.ts`
lines 133-137: `indexableStatuses.includes(s) ? Pending
: s === RateLimited ? Failed : Completed`. -/
def classify (s : IndexingStatus) : PageStatus :=
  if indexableStatuses.contains s then PageStatus.Pending
  else if s = IndexingStatus.RateLimited then PageStatus.Failed
  else PageStatus.Completed

/-- `shouldRecheck` of the main variant (`src/index.ts` lines 120-124):
`isOld || isFailed` where `isOld` compares `lastCheckedAt` against
`Date.now() - CACHE_TIMEOUT`. -/
def shouldRecheck (page : Page) (now : Int) : Bool :=
  let isFailed := page.status == PageStatus.Failed
  let isOld := decide (page.lastCheckedAt < now - CACHE_TIMEOUT)
  isOld || isFailed

/-- `shouldRecheck` of the prompt-UI variant (`part_001` lines 136-140):
`shouldIndexIt && isOld`. -/
def shouldRecheckVariant (status : IndexingStatus) (lastCheckedAt now : Int) : Bool :=
  let shouldIndexIt := indexableStatusesVariant.contains status
  let isOld := decide (lastCheckedAt < now - CACHE_TIMEOUT)
  shouldIndexIt && isOld

/-- `shouldBeSubmitted` from `src/index.ts` lines 166-168. -/
def shouldBeSubmitted (page : Page) : Bool :=
  page.status == PageStatus.Pending

/-- C1: the status classifier is total over the nine raw statuses and maps
each of the five indexable statuses to `Pending`, `RateLimited` to `Failed`,
and the remaining three statuses to `Completed`. -/
theorem classify_total_table :
    classify IndexingStatus.DiscoveredCurrentlyNotIndexed = PageStatus.Pending ∧
    classify IndexingStatus.CrawledCurrentlyNotIndexed = PageStatus.Pending ∧
    classify IndexingStatus.URLIsUnknownToGoogle = PageStatus.Pending ∧
    classify IndexingStatus.Forbidden = PageStatus.Pending ∧
    classify IndexingStatus.Error = PageStatus.Pending ∧
    classify IndexingStatus.RateLimited = PageStatus.Failed ∧
    classify IndexingStatus.SubmittedAndIndexed = PageStatus.Completed ∧
    classify IndexingStatus.DuplicateWithoutUserSelectedCanonical = PageStatus.Completed ∧
    classify IndexingStatus.PageWithRedirect = PageStatus.Completed := by
  decide

/-- C2: the failure-or-age staleness policy of the main variant: an entry is
rechecked iff its status is `Failed` or its `lastCheckedAt` is strictly older
than the 14-day freshness window relative to `now`. -/
theorem shouldRecheck_failure_or_age (page : Page) (now : Int) :
    shouldRecheck page now = true ↔
      page.status = PageStatus.Failed ∨ page.lastCheckedAt < now - CACHE_TIMEOUT := by
  simp [shouldRecheck, Bool.or_eq_true, beq_iff_eq]
  tauto

/-- C3: the indexable-and-age staleness policy of the prompt-UI variant: an
entry is rechecked iff its cached status lies in the variant's IndexableSet
(which contains `RateLimited`) and the entry is older than the 14-day window;
in particular a URL with status `SubmittedAndIndexed` is never rechecked. -/
theorem shouldRecheckVariant_indexable_and_age :
    (∀ (s : IndexingStatus) (lastCheckedAt now : Int),
      shouldRecheckVariant s lastCheckedAt now = true ↔
        s ∈ indexableStatusesVariant ∧ lastCheckedAt < now - CACHE_TIMEOUT) ∧
    indexableStatusesVariant =
      [IndexingStatus.DiscoveredCurrentlyNotIndexed,
       IndexingStatus.CrawledCurrentlyNotIndexed,
       IndexingStatus.URLIsUnknownToGoogle,
       IndexingStatus.Forbidden,
       IndexingStatus.Error,
       IndexingStatus.RateLimited] ∧
    (∀ (lastCheckedAt now : Int),
      shouldRecheckVariant IndexingStatus.SubmittedAndIndexed lastCheckedAt now = false) := by
  refine ⟨?_, rfl, ?_⟩
  · intro s lastCheckedAt now
    cases s <;>
      simp [shouldRecheckVariant, indexableStatusesVariant, List.contains]
  · intro lastCheckedAt now
    simp [shouldRecheckVariant, indexableStatusesVariant, List.contains]

/-- C5: the publish-metadata query is configured with a retry budget of
`QUOTA.rpm.retries = 3` attempts when `rpmRetry` is enabled and `0` when it is
disabled, and the configured backoff wait is `QUOTA.rpm.waitingTime = 60000`
milliseconds (60 seconds). -/
theorem quota_retry_config :
    retriesOnRateLimit true = QUOTA.rpm.retries ∧
    QUOTA.rpm.retries = 3 ∧
    retriesOnRateLimit false = 0 ∧
    QUOTA.rpm.waitingTime = 60000 := by
  decide

/-- C8: an entry whose `lastCheckedAt` sits exactly at the 14-day boundary is
not considered old by either staleness implementation (the boundary is closed
on the fresh side, consistently): the main variant rechecks such an entry only
when its status is `Failed`, and the prompt-UI variant never rechecks it. -/
theorem staleness_boundary_fresh (now : Int) (st : PageStatus) (ist : IndexingStatus) :
    shouldRecheck ⟨st, ist, now - CACHE_TIMEOUT⟩ now = (st == PageStatus.Failed) ∧
    (∀ s : IndexingStatus, shouldRecheckVariant s (now - CACHE_TIMEOUT) now = false) := by
  constructor
  · simp [shouldRecheck]
  · intro s
    simp [shouldRecheckVariant]

/-! ### Pipeline model (main variant, `src/index.ts`) -/

/-- Lookup in the cache mapping (`pages[url]` on a JS object). -/
def lookupPage : List (String × Page) → String → Option Page
  | [], _ => none
  | (k, v) :: rest, url => if k = url then some v else lookupPage rest url

/-- Update of the cache mapping (`pages[url] = page` on a JS object): replace
in place when the key exists, append otherwise. -/
def insertPage : List (String × Page) → String → Page → List (String × Page)
  | [], url, p => [(url, p)]
  | (k, v) :: rest, url, p =>
      if k = url then (k, p) :: rest else (k, v) :: insertPage rest url p

/-- The fresh cache entry built in the batch worker (`src/index.ts`
lines 131-139): raw status from the check, classified status, current time. -/
def mkPage (s : IndexingStatus) (now : Int) : Page :=
  ⟨classify s, s, now⟩

/-- Observable pipeline events: a status check of a URL, the single cache-file
write (`writeFileSync`, carrying the written mapping), and the per-URL
submission processing of the final loop. -/
inductive Event where
  | check (url : String)
  | save (cache : List (String × Page))
  | submit (url : String)
  deriving DecidableEq, Repr

/-- One batch-worker step (`src/index.ts` lines 127-146): check the URL when
it has no cache entry or `shouldRecheck` holds, otherwise leave it alone. -/
def checkStep (env : String → IndexingStatus) (now : Int)
    (acc : List (String × Page) × List Event) (url : String) :
    List (String × Page) × List Event :=
  match lookupPage acc.1 url with
  | none => (insertPage acc.1 url (mkPage (env url) now), acc.2 ++ [Event.check url])
  | some page =>
      if shouldRecheck page now then
        (insertPage acc.1 url (mkPage (env url) now), acc.2 ++ [Event.check url])
      else acc

/-- The whole check phase: the batch runner applies the worker to every URL;
per-URL cache writes target disjoint keys, so the fold order is immaterial. -/
def checkPhase (env : String → IndexingStatus) (now : Int)
    (pages : List (String × Page)) (urls : List String) :
    List (String × Page) × List Event :=
  List.foldl (checkStep env now) (pages, []) urls

/-- Cache load (`src/index.ts` line 99): parse the file when it exists,
otherwise start from the empty mapping. -/
def loadCache (file : Option (List (String × Page))) : List (String × Page) :=
  file.getD []

/-- Result of one pipeline run: final cache mapping, event trace, and the
submission queue. -/
structure RunResult where
  pages : List (String × Page)
  trace : List Event
  queue : List String
  deriving DecidableEq, Repr

/-- The main-variant pipeline from cache load onward (`src/index.ts`
lines 99-192): load cache, run the batched checks, write the cache file once,
compute the queue from every entry of the mapping, process the queue. -/
def runPipeline (env : String → IndexingStatus) (now : Int)
    (cacheFile : Option (List (String × Page))) (urls : List String) : RunResult :=
  let r := checkPhase env now (loadCache cacheFile) urls
  let queue := (r.1.filter fun kv => shouldBeSubmitted kv.2).map Prod.fst
  ⟨r.1, r.2 ++ Event.save r.1 :: queue.map Event.submit, queue⟩

/-- Outcome of processing one queued URL in the submission loop. -/
inductive SubmitOutcome where
  | NewlySubmitted
  | AlreadyRequested
  | Skipped
  deriving DecidableEq, Repr

/-- The per-URL submission decision (`src/index.ts` lines 180-192): request
indexing exactly on a 404 publish-metadata status, report an existing
submission on any status below 400, otherwise skip. -/
def processQueueUrl (metadataStatus : Nat) : SubmitOutcome :=
  if metadataStatus = 404 then SubmitOutcome.NewlySubmitted
  else if metadataStatus < 400 then SubmitOutcome.AlreadyRequested
  else SubmitOutcome.Skipped

/-- Whether the submission loop invokes `requestIndexing` for a URL whose
publish-metadata query returned `metadataStatus`. -/
def requestsIndexing (metadataStatus : Nat) : Bool :=
  processQueueUrl metadataStatus == SubmitOutcome.NewlySubmitted

/-! ### URL enumeration (`src/index.ts` lines 80-97) -/

/-- Result of the enumeration step: a fatal exit or a URL list to process. -/
inductive EnumResult where
  | fatal
  | proceed (urls : List String)
  deriving DecidableEq, Repr

/-- URL enumeration: with no provided URL list, fetch sitemaps and exit fatally
only when zero sitemaps are found; otherwise use the sitemap URLs. With a
provided list, use its domain-filtered form (`checkCustomUrls`). -/
def enumerateUrls (optionUrls sitemaps urlsFromSitemaps checkedCustomUrls : List String) :
    EnumResult :=
  if optionUrls.length = 0 then
    if sitemaps.length = 0 then EnumResult.fatal
    else EnumResult.proceed urlsFromSitemaps
  else EnumResult.proceed checkedCustomUrls

/-- The run including the enumeration step: `none` models a fatal
`process.exit(1)` before any check, cache write or submission. -/
def fullRun (env : String → IndexingStatus) (now : Int)
    (cacheFile : Option (List (String × Page)))
    (optionUrls sitemaps urlsFromSitemaps checkedCustomUrls : List String) :
    Option RunResult :=
  match enumerateUrls optionUrls sitemaps urlsFromSitemaps checkedCustomUrls with
  | EnumResult.fatal => none
  | EnumResult.proceed urls => some (runPipeline env now cacheFile urls)

/-! ### Supporting lemmas -/

theorem lookupPage_insertPage_ne (ps : List (String × Page)) (u url : String) (q : Page)
    (h : u ≠ url) : lookupPage (insertPage ps u q) url = lookupPage ps url := by
  induction ps with
  | nil => simp [insertPage, lookupPage, h]
  | cons kv rest ih =>
      obtain ⟨k, v⟩ := kv
      by_cases hk : k = u
      · subst hk
        simp [insertPage, lookupPage, h]
      · simp only [insertPage, if_neg hk]
        by_cases hku : k = url
        · simp [lookupPage, hku]
        · simp [lookupPage, hku, ih]

theorem foldl_checkStep_preserves (env : String → IndexingStatus) (now : Int)
    (url : String) (p : Page) :
    ∀ (urls : List String) (acc : List (String × Page) × List Event),
      lookupPage acc.1 url = some p →
      (url ∉ urls ∨ shouldRecheck p now = false) →
      lookupPage (List.foldl (checkStep env now) acc urls).1 url = some p := by
  intro urls
  induction urls with
  | nil =>
      intro acc h hcond
      simpa using h
  | cons u us ih =>
      intro acc h hcond
      rw [List.foldl_cons]
      have hstep : lookupPage (checkStep env now acc u).1 url = some p := by
        by_cases hu : u = url
        · subst hu
          have hsr : shouldRecheck p now = false := by
            rcases hcond with hnot | hsr
            · exact absurd (List.mem_cons_self u us) hnot
            · exact hsr
          simp [checkStep, h, hsr]
        · cases hl : lookupPage acc.1 u with
          | none =>
              simp [checkStep, hl, lookupPage_insertPage_ne acc.1 u url (mkPage (env u) now) hu, h]
          | some page =>
              by_cases hsr : shouldRecheck page now
              · simp [checkStep, hl, hsr,
                  lookupPage_insertPage_ne acc.1 u url (mkPage (env u) now) hu, h]
              · simp [checkStep, hl, hsr, h]
      apply ih _ hstep
      rcases hcond with hnot | hsr
      · exact Or.inl fun hm => hnot (List.mem_cons_of_mem u hm)
      · exact Or.inr hsr

theorem checkPhase_trace_checks (env : String → IndexingStatus) (now : Int) :
    ∀ (urls : List String) (acc : List (String × Page) × List Event),
      (∀ e ∈ acc.2, ∃ u, e = Event.check u) →
      ∀ e ∈ (List.foldl (checkStep env now) acc urls).2, ∃ u, e = Event.check u := by
  intro urls
  induction urls with
  | nil =>
      intro acc h
      simpa using h
  | cons u us ih =>
      intro acc h
      rw [List.foldl_cons]
      apply ih
      intro e he
      cases hl : lookupPage acc.1 u with
      | none =>
          simp [checkStep, hl] at he
          rcases he with he | he
          · exact h e he
          · exact ⟨u, he⟩
      | some page =>
          by_cases hsr : shouldRecheck page now
          · simp [checkStep, hl, hsr] at he
            rcases he with he | he
            · exact h e he
            · exact ⟨u, he⟩
          · simp [checkStep, hl, hsr] at he
            exact h e he

theorem mem_queue_of_lookup_pending :
    ∀ (ps : List (String × Page)) (url : String) (p : Page),
      lookupPage ps url = some p → p.status = PageStatus.Pending →
      url ∈ (ps.filter fun kv => shouldBeSubmitted kv.2).map Prod.fst := by
  intro ps
  induction ps with
  | nil =>
      intro url p h hp
      simp [lookupPage] at h
  | cons kv rest ih =>
      intro url p h hp
      obtain ⟨k, v⟩ := kv
      by_cases hk : k = url
      · subst hk
        simp [lookupPage] at h
        subst h
        simp [List.filter_cons, shouldBeSubmitted, hp]
      · simp [lookupPage, hk] at h
        have hmem := ih url p h hp
        by_cases hv : shouldBeSubmitted v = true
        · simp only [List.filter_cons, hv, if_true, List.map_cons, List.mem_cons]
          exact Or.inr hmem
        · simp only [List.filter_cons, if_neg hv]
          exact hmem

/-! ### Claim theorems over the pipeline model -/

/-- C4: the submission loop requests indexing exactly on a 404
publish-metadata status; any status below 400 yields no request, so a second
run whose metadata reflects the first run's submissions (every URL newly
submitted in run one now reports an existing submission) never issues a
duplicate indexing request. -/
theorem submission_idempotent :
    (∀ s : Nat, requestsIndexing s = true ↔ s = 404) ∧
    (∀ s : Nat, s < 400 → requestsIndexing s = false) ∧
    (∀ metaOne metaTwo : String → Nat,
      (∀ url, requestsIndexing (metaOne url) = true → metaTwo url < 400) →
      ∀ url, requestsIndexing (metaOne url) = true →
        requestsIndexing (metaTwo url) = false) := by
  have h404 : ∀ s : Nat, requestsIndexing s = true ↔ s = 404 := by
    intro s
    by_cases h : s = 404 <;> by_cases h2 : s < 400 <;>
      simp [requestsIndexing, processQueueUrl, h, h2]
  have hlow : ∀ s : Nat, s < 400 → requestsIndexing s = false := by
    intro s hs
    have hne : s ≠ 404 := by omega
    simp [requestsIndexing, processQueueUrl, hne, hs]
  refine ⟨h404, hlow, ?_⟩
  intro metaOne metaTwo hext url h1
  exact hlow (metaTwo url) (hext url h1)

theorem submission_idempotent_witness :
    requestsIndexing ((fun _ : String => 200) "https://example.com/a") = false :=
  submission_idempotent.2.2 (fun _ => 404) (fun _ => 200)
    (fun _ _ => by norm_num) "https://example.com/a" (by decide)

/-- C6 counterexample: with no custom URL list, one sitemap, zero URLs
discovered in it, and no prior cache, the run is not fatal: it proceeds,
performs no check, and writes the (empty) cache file — refuting the claim
that zero enumerated URLs terminate the run before any cache write. (With a
prior cache the queue can even be nonempty, since it is computed from every
loaded cache entry.) -/
theorem zero_urls_not_fatal :
    fullRun (fun _ => IndexingStatus.Error) 0 none
      [] ["https://example.com/sitemap.xml"] [] [] =
      some ⟨[], [Event.save []], []⟩ := rfl

/-- C6 (amended): the enumeration step is fatal iff no custom URL list is
provided and zero sitemaps are found; when at least one sitemap exists, the
run proceeds even with zero discovered URLs, and a provided custom list always
proceeds even when filtered to empty. -/
theorem enumeration_fatal_iff_no_sitemaps
    (env : String → IndexingStatus) (now : Int)
    (cacheFile : Option (List (String × Page)))
    (optionUrls sitemaps urlsFromSitemaps checkedCustomUrls : List String) :
    fullRun env now cacheFile optionUrls sitemaps urlsFromSitemaps checkedCustomUrls = none ↔
      optionUrls = [] ∧ sitemaps = [] := by
  by_cases h1 : optionUrls.length = 0 <;> by_cases h2 : sitemaps.length = 0 <;>
    simp_all [fullRun, enumerateUrls, List.length_eq_zero]

/-- C7: cache lifecycle: loading a missing cache file yields the empty mapping,
and every run's trace decomposes as status checks, then exactly one cache-file
write carrying the fully-rebuilt final mapping, then the submission steps. -/
theorem cache_lifecycle (env : String → IndexingStatus) (now : Int)
    (cacheFile : Option (List (String × Page))) (urls : List String) :
    loadCache none = [] ∧
    ∃ c s, (runPipeline env now cacheFile urls).trace =
        c ++ Event.save (runPipeline env now cacheFile urls).pages :: s ∧
      (∀ e ∈ c, ∃ u, e = Event.check u) ∧
      (∀ e ∈ s, ∃ u, e = Event.submit u) := by
  refine ⟨rfl, (checkPhase env now (loadCache cacheFile) urls).2,
    ((runPipeline env now cacheFile urls).queue).map Event.submit, rfl, ?_, ?_⟩
  · exact checkPhase_trace_checks env now urls (loadCache cacheFile, []) (by simp)
  · intro e he
    rcases List.mem_map.1 he with ⟨u, _, rfl⟩
    exact ⟨u, rfl⟩

/-- The status-check environment of the end-to-end scenario: three URLs whose
checks return `DiscoveredCurrentlyNotIndexed`, `SubmittedAndIndexed` and
`RateLimited` respectively. -/
def scenarioEnv : String → IndexingStatus := fun url =>
  if url = "a" then IndexingStatus.DiscoveredCurrentlyNotIndexed
  else if url = "b" then IndexingStatus.SubmittedAndIndexed
  else IndexingStatus.RateLimited

/-- C9: end-to-end scenario: three URLs, no prior cache, statuses
`DiscoveredCurrentlyNotIndexed`, `SubmittedAndIndexed`, `RateLimited`: exactly
one URL each is classified `Pending`, `Completed`, `Failed`; exactly the
`Pending` URL enters the submission queue; and the saved cache holds exactly
three entries, each stamped with the run's timestamp. -/
theorem end_to_end_scenario (now : Int) :
    (runPipeline scenarioEnv now none ["a", "b", "c"]).pages =
      [("a", ⟨PageStatus.Pending, IndexingStatus.DiscoveredCurrentlyNotIndexed, now⟩),
       ("b", ⟨PageStatus.Completed, IndexingStatus.SubmittedAndIndexed, now⟩),
       ("c", ⟨PageStatus.Failed, IndexingStatus.RateLimited, now⟩)] ∧
    ((runPipeline scenarioEnv now none ["a", "b", "c"]).pages.filter
      fun kv => kv.2.status == PageStatus.Pending).length = 1 ∧
    ((runPipeline scenarioEnv now none ["a", "b", "c"]).pages.filter
      fun kv => kv.2.status == PageStatus.Completed).length = 1 ∧
    ((runPipeline scenarioEnv now none ["a", "b", "c"]).pages.filter
      fun kv => kv.2.status == PageStatus.Failed).length = 1 ∧
    (runPipeline scenarioEnv now none ["a", "b", "c"]).queue = ["a"] ∧
    (runPipeline scenarioEnv now none ["a", "b", "c"]).pages.length = 3 ∧
    ∀ kv ∈ (runPipeline scenarioEnv now none ["a", "b", "c"]).pages,
      kv.2.lastCheckedAt = now := by
  have hp : (runPipeline scenarioEnv now none ["a", "b", "c"]).pages =
      [("a", ⟨PageStatus.Pending, IndexingStatus.DiscoveredCurrentlyNotIndexed, now⟩),
       ("b", ⟨PageStatus.Completed, IndexingStatus.SubmittedAndIndexed, now⟩),
       ("c", ⟨PageStatus.Failed, IndexingStatus.RateLimited, now⟩)] := rfl
  refine ⟨hp, ?_, ?_, ?_, rfl, ?_, ?_⟩
  · rw [hp]; rfl
  · rw [hp]; rfl
  · rw [hp]; rfl
  · rw [hp]; rfl
  · intro kv hkv
    rw [hp] at hkv
    simp only [List.mem_cons, List.not_mem_nil, or_false] at hkv
    rcases hkv with h | h | h <;> subst h <;> rfl

/-- C10: the submission queue is computed from every entry of the final cache
mapping: it equals the Pending-filtered keys of that mapping, and any cached
Pending entry — whether its URL is absent from this run's URL list or fresh
enough that no recheck occurred — enters the queue. -/
theorem queue_includes_all_cached_pending :
    (∀ (env : String → IndexingStatus) (now : Int)
       (cacheFile : Option (List (String × Page))) (urls : List String),
       (runPipeline env now cacheFile urls).queue =
         ((runPipeline env now cacheFile urls).pages.filter
           fun kv => shouldBeSubmitted kv.2).map Prod.fst) ∧
    (∀ (env : String → IndexingStatus) (now : Int) (cache : List (String × Page))
       (urls : List String) (url : String) (p : Page),
       lookupPage cache url = some p → p.status = PageStatus.Pending →
       (url ∉ urls ∨ shouldRecheck p now = false) →
       url ∈ (runPipeline env now (some cache) urls).queue) := by
  constructor
  · intro env now cacheFile urls
    rfl
  · intro env now cache urls url p h hp hcond
    have hpres := foldl_checkStep_preserves env now url p urls
      (loadCache (some cache), []) (by simpa [loadCache] using h) hcond
    exact mem_queue_of_lookup_pending _ url p hpres hp

theorem queue_includes_all_cached_pending_witness :
    "https://example.com/x" ∈ (runPipeline (fun _ => IndexingStatus.Error) 0
      (some [("https://example.com/x",
        ⟨PageStatus.Pending, IndexingStatus.DiscoveredCurrentlyNotIndexed, 5⟩)])
      []).queue :=
  queue_includes_all_cached_pending.2 (fun _ => IndexingStatus.Error) 0
    [("https://example.com/x",
      ⟨PageStatus.Pending, IndexingStatus.DiscoveredCurrentlyNotIndexed, 5⟩)]
    [] "https://example.com/x"
    ⟨PageStatus.Pending, IndexingStatus.DiscoveredCurrentlyNotIndexed, 5⟩
    (by simp [lookupPage]) rfl (Or.inl (by simp))

end GIS
